import Mathlib

/-!
Shallow embedding of the agent registry and discovery service
(src/server.js) for checking the specification's claims.

Modelling conventions:
- JavaScript numbers that hold coordinates, times and statistics are
  modelled as rationals (the values in play are decimal literals and
  counter arithmetic, no float rounding is relevant to the claims).
- The external document store (Elasticsearch) is modelled by its
  observable contract: one document per id, index replaces, get/delete
  by id, per-hit sort values computed from the compiled sort clauses.
  Geo-distance computation is an external collaborator (spec section 1)
  and is therefore a parameter, never reimplemented.
- The in-process card cache (NodeCache, stdTTL 300) is an association
  list from key to entry with an absolute expiry time; reads take the
  current time explicitly.
-/

namespace AgentDiscovery

/-- Association-list lookup by key (first match wins), used for both the
document store keyed by agentId and the card cache keyed by cache key. -/
def alistLookup {β : Type} (l : List (String × β)) (k : String) : Option β :=
  (l.find? (fun p => p.1 == k)).map (·.2)

@[simp]
theorem alistLookup_nil {β : Type} (k : String) :
    alistLookup ([] : List (String × β)) k = none := rfl

@[simp]
theorem alistLookup_cons {β : Type} (a : String × β) (l : List (String × β)) (k : String) :
    alistLookup (a :: l) k = if a.1 = k then some a.2 else alistLookup l k := by
  simp only [alistLookup, List.find?]
  by_cases h : a.1 = k
  · simp [h]
  · simp [h, beq_eq_false_iff_ne.mpr h]

/-- Looking a key up after every pair with that key was filtered out yields
nothing. -/
theorem alistLookup_filter_ne {β : Type} (l : List (String × β)) (k : String) :
    alistLookup (l.filter (fun p => p.1 != k)) k = none := by
  have hfind : (l.filter (fun p => p.1 != k)).find? (fun p => p.1 == k) = none := by
    rw [List.find?_eq_none]
    intro p hp
    have := List.of_mem_filter hp
    simp only [bne_iff_ne, ne_eq] at this
    simpa using this
  simp [alistLookup, hfind]

/-! ## Data model (src/server.js lines 46-65, 181-192) -/

/-- A geographic point as submitted in a registration:
an object with `lat` and `lon` members. -/
structure GeoPoint where
  lat : ℚ
  lon : ℚ
deriving DecidableEq, Repr

/-- The optional `location` object of a registration input. -/
structure LocationInput where
  coordinates : GeoPoint
  city : Option String := none
  country : Option String := none
deriving DecidableEq, Repr

/-- A registration request body after schema validation
(`agentRegistrationSchema`), with Joi defaults applied. -/
structure AgentRegistration where
  agentId : String
  name : String
  description : String
  url : String
  tags : List String := []
  status : String := "active"
  version : String := "1.0.0"
  capabilities : String := ""
  location : Option LocationInput := none
deriving DecidableEq, Repr

/-- The `location` object as stored in the document store: the handler
rewrites the coordinates object into the array `[lon, lat]`. -/
structure StoredLocation where
  coordinates : List ℚ
  city : Option String
  country : Option String
deriving DecidableEq, Repr

/-- An agent document as stored in the index: the validated registration
plus the server-stamped `updatedAt`, with coordinates rewritten. -/
structure AgentRecord where
  agentId : String
  name : String
  description : String
  url : String
  tags : List String
  status : String
  version : String
  capabilities : String
  location : Option StoredLocation
  updatedAt : ℚ
deriving DecidableEq, Repr

/-- The document built by the `/registry` handler before indexing:
spread of the validated value, `updatedAt` stamped, and
`location.coordinates` rewritten from `{lat, lon}` to `[lon, lat]`
(src/server.js lines 181-192). -/
def toStored (v : AgentRegistration) (now : ℚ) : AgentRecord :=
  { agentId := v.agentId
    name := v.name
    description := v.description
    url := v.url
    tags := v.tags
    status := v.status
    version := v.version
    capabilities := v.capabilities
    location := v.location.map (fun l =>
      { coordinates := [l.coordinates.lon, l.coordinates.lat]
        city := l.city
        country := l.country })
    updatedAt := now }

/-! ## Card cache and server state (src/server.js lines 28-40, 417-475) -/

/-- A fetched agent card: the origin's payload (an opaque list of
fields), the stamped `agentId`, the `cached` flag and the fetch time. -/
structure AgentCard where
  data : List (String × String)
  agentId : String
  cached : Bool
  fetchTimestamp : ℚ
deriving DecidableEq, Repr

/-- A cache entry: the stored card plus its absolute expiry time. -/
structure CacheEntry where
  card : AgentCard
  expiry : ℚ
deriving DecidableEq, Repr

/-- The process-wide mutable state: the external index's documents, the
card cache, and the hit/miss counters. -/
structure ServerState where
  store : List (String × AgentRecord)
  cache : List (String × CacheEntry)
  hits : ℕ
  misses : ℕ
deriving DecidableEq, Repr

/-- NodeCache stdTTL: 300 time-units (src/server.js line 30). -/
def cacheTTL : ℚ := 300

/-- Cache read at time `now`: a stored entry is returned while it has not
expired. -/
def cacheGet (c : List (String × CacheEntry)) (key : String) (now : ℚ) :
    Option AgentCard :=
  match alistLookup c key with
  | some e => if now < e.expiry then some e.card else none
  | none => none

/-- Cache write at time `now`: replaces any entry under the key and sets
expiry `now + cacheTTL`. -/
def cacheSet (c : List (String × CacheEntry)) (key : String) (card : AgentCard)
    (now : ℚ) : List (String × CacheEntry) :=
  (key, ⟨card, now + cacheTTL⟩) :: c.filter (fun p => p.1 != key)

/-- Cache invalidation (`agentCache.del`). -/
def cacheDel (c : List (String × CacheEntry)) (key : String) :
    List (String × CacheEntry) :=
  c.filter (fun p => p.1 != key)

/-- The document store's index operation: one document per id, a write
with an existing id replaces the prior document. -/
def upsertStore (s : List (String × AgentRecord)) (id : String) (r : AgentRecord) :
    List (String × AgentRecord) :=
  (id, r) :: s.filter (fun p => p.1 != id)

/-- The cache key used for an agent's card (src/server.js line 420). -/
def cardKey (agentId : String) : String := "agentcard:" ++ agentId

/-! ## Registry operations (src/server.js lines 174-295) -/

/-- The `/registry` handler's state effect: index the stamped document
and invalidate the cached card for that id (lines 194-202). -/
def register (st : ServerState) (input : AgentRegistration) (now : ℚ) :
    ServerState :=
  { st with
    store := upsertStore st.store input.agentId (toStored input now)
    cache := cacheDel st.cache (cardKey input.agentId) }

/-- The `/agent/:agentId` GET handler: fetch the document by id
(lines 253-271). -/
def getMetadata (st : ServerState) (agentId : String) : Option AgentRecord :=
  alistLookup st.store agentId

/-- The `/agent/:agentId` DELETE handler: delete the document and drop
the cached card; `false` when the id was absent (lines 274-295). -/
def deleteAgent (st : ServerState) (agentId : String) : ServerState × Bool :=
  match alistLookup st.store agentId with
  | none => (st, false)
  | some _ =>
      ({ st with
         store := st.store.filter (fun p => p.1 != agentId)
         cache := cacheDel st.cache (cardKey agentId) }, true)

/-- Calls made against the external store and the cache, in program
order, by a handler. -/
inductive StoreEffect
  | indexDoc (id : String)
  | refreshIndex
  | deleteDoc (id : String)
  | cacheInvalidate (key : String)
deriving DecidableEq, Repr

/-- The sequence of store/cache calls the `/registry` handler performs on
the success path: `client.index`, `agentCache.del`, then
`client.indices.refresh` (src/server.js lines 194-205). -/
def registerEffects (input : AgentRegistration) : List StoreEffect :=
  [.indexDoc input.agentId, .cacheInvalidate (cardKey input.agentId), .refreshIndex]

/-- The sequence of store/cache calls the DELETE `/agent/:agentId`
handler performs on the success path: `client.delete` then
`agentCache.del`; no refresh call appears in the handler
(src/server.js lines 274-295). -/
def deleteAgentEffects (agentId : String) : List StoreEffect :=
  [.deleteDoc agentId, .cacheInvalidate (cardKey agentId)]

/-! ## Agent card retrieval (src/server.js lines 417-475) -/

/-- Outcome of the outbound card fetch (axios GET with a 5-unit timeout):
either the origin's payload, or any failure (timeout, connection error,
non-success response). -/
inductive FetchResult
  | ok (data : List (String × String))
  | failed
deriving DecidableEq, Repr

/-- Response of the `/agentcard/:agentId` handler. -/
inductive CardResponse
  | ok (card : AgentCard)
  | notFound
  | cardUnavailable (agentId url : String)
deriving DecidableEq, Repr

/-- The `/agentcard/:agentId` handler: cache read first (hit increments
`hits` and returns the stored card with `cached` forced to true); on a
miss increment `misses`, resolve the agent record, fetch the card from
its origin, and on success stamp, cache and return it; on fetch failure
report 503 with the agentId and url without touching the cache
(src/server.js lines 417-475). `fetch` is the external origin, `now`
the current time. -/
def getCard (st : ServerState) (agentId : String) (fetch : String → FetchResult)
    (now : ℚ) : ServerState × CardResponse :=
  let key := cardKey agentId
  match cacheGet st.cache key now with
  | some card =>
      ({ st with hits := st.hits + 1 }, .ok { card with cached := true })
  | none =>
      let st1 := { st with misses := st.misses + 1 }
      match alistLookup st1.store agentId with
      | none => (st1, .notFound)
      | some r =>
          match fetch r.url with
          | .failed => (st1, .cardUnavailable agentId r.url)
          | .ok d =>
              let card : AgentCard :=
                { data := d, agentId := agentId, cached := false, fetchTimestamp := now }
              ({ st1 with cache := cacheSet st1.cache key card now }, .ok card)

/-! ## Search request validation (src/server.js lines 67-83, 300-303) -/

/-- The raw `/search` query parameters, after HTTP-level type conversion
but before schema validation; `none` is an absent parameter. -/
structure RawSearchParams where
  q : Option String := none
  tags : Option String := none
  status : Option String := none
  version : Option String := none
  city : Option String := none
  country : Option String := none
  lat : Option ℚ := none
  lon : Option ℚ := none
  page : Option Int := none
  perPage : Option Int := none
  sort : Option String := none
deriving DecidableEq, Repr

/-- The four values `searchQuerySchema` accepts for `sort`. -/
inductive SortMode
  | relevance
  | name
  | updatedAt
  | distance
deriving DecidableEq, Repr

/-- A search request that passed `searchQuerySchema`, defaults applied. -/
structure SearchQuery where
  q : Option String := none
  tags : Option String := none
  status : Option String := none
  version : Option String := none
  city : Option String := none
  country : Option String := none
  lat : Option ℚ := none
  lon : Option ℚ := none
  page : Int := 1
  perPage : Int := 20
  sort : SortMode := .relevance
deriving DecidableEq, Repr

/-- Joi `string()` check: an optional string parameter, rejected when
present but empty (Joi strings disallow the empty string by default). -/
def checkOptString (name : String) (v : Option String) :
    Except String (Option String) :=
  match v with
  | some "" => .error (name ++ " is not allowed to be empty")
  | v => .ok v

/-- Joi `valid('active','inactive','maintenance')` check for `status`. -/
def checkStatus (v : Option String) : Except String (Option String) :=
  match v with
  | none => .ok none
  | some s =>
      if s = "active" ∨ s = "inactive" ∨ s = "maintenance" then .ok (some s)
      else .error "status must be one of [active, inactive, maintenance]"

/-- Joi `number().min(lo).max(hi)` check for an optional numeric field. -/
def checkNumRange (name : String) (lo hi : ℚ) (v : Option ℚ) :
    Except String (Option ℚ) :=
  match v with
  | none => .ok none
  | some x =>
      if lo ≤ x ∧ x ≤ hi then .ok (some x)
      else .error (name ++ " is out of range")

/-- Joi `number().integer().min(lo)` (optionally `.max(hi)`) with a
default for an absent value. -/
def checkIntRange (name : String) (lo : Int) (hi : Option Int) (dflt : Int)
    (v : Option Int) : Except String Int :=
  match v with
  | none => .ok dflt
  | some n =>
      if lo ≤ n ∧ (match hi with | none => true | some h => decide (n ≤ h)) = true then .ok n
      else .error (name ++ " is out of range")

/-- Joi `valid('relevance','name','updatedAt','distance')` with default
`relevance` for `sort`. -/
def checkSort (v : Option String) : Except String SortMode :=
  match v with
  | none => .ok .relevance
  | some "relevance" => .ok .relevance
  | some "name" => .ok .name
  | some "updatedAt" => .ok .updatedAt
  | some "distance" => .ok .distance
  | some _ => .error "sort must be one of [relevance, name, updatedAt, distance]"

/-- `searchQuerySchema.validate` (src/server.js lines 67-83): each field
checked against its Joi rule, defaults applied, first failure reported. -/
def validateSearchQuery (p : RawSearchParams) : Except String SearchQuery := do
  let q ← checkOptString "q" p.q
  let tags ← checkOptString "tags" p.tags
  let status ← checkStatus p.status
  let version ← checkOptString "version" p.version
  let city ← checkOptString "city" p.city
  let country ← checkOptString "country" p.country
  let lat ← checkNumRange "lat" (-90) 90 p.lat
  let lon ← checkNumRange "lon" (-180) 180 p.lon
  let page ← checkIntRange "page" 1 none 1 p.page
  let perPage ← checkIntRange "perPage" 1 (some 100) 20 p.perPage
  let sort ← checkSort p.sort
  return { q, tags, status, version, city, country, lat, lon, page, perPage, sort }

/-! ## Query compiler (src/server.js lines 305-394) -/

/-- A must clause of the compiled query. -/
inductive MustClause
  | multiMatch (query : String) (fields : List String) (fuzziness : String)
      (matchType : String)
deriving DecidableEq, Repr

/-- A filter clause of the compiled query. -/
inductive FilterClause
  | terms (fieldName : String) (values : List String)
  | term (fieldName : String) (value : String)
deriving DecidableEq, Repr

/-- A sort clause of the compiled query. -/
inductive SortClauseItem
  | geoDistance (lat lon : ℚ) (order unitName : String)
  | byField (fieldName : String) (order : String)
deriving DecidableEq, Repr

/-- The structured query the `/search` handler sends to the store. -/
structure CompiledQuery where
  must : List MustClause
  filterClauses : List FilterClause
  sortClause : List SortClauseItem
  fromOffset : Int
  size : Int
  aggFields : List String
deriving DecidableEq, Repr

/-- JavaScript truthiness of an optional string value: `undefined` and
the empty string are falsy. -/
def jsTruthyStr : Option String → Bool
  | none => false
  | some s => s != ""

/-- JavaScript truthiness of an optional number value: `undefined` and
`0` are falsy. -/
def jsTruthyNum : Option ℚ → Bool
  | none => false
  | some x => x != 0

/-- The `/search` handler's query construction (src/server.js lines
305-394): must clause from `q`, filters from `tags`/`status`/`version`,
geo sort pushed first when `lat && lon` is truthy, then the requested
sort, and pagination `from = (page-1)*perPage`, `size = perPage`. -/
def compileQuery (sq : SearchQuery) : CompiledQuery :=
  let must :=
    if jsTruthyStr sq.q then
      [MustClause.multiMatch (sq.q.getD "")
        ["name^2", "description", "capabilities"] "AUTO" "best_fields"]
    else []
  let filterClauses :=
    (if jsTruthyStr sq.tags then
      [FilterClause.terms "tags" (((sq.tags.getD "").splitOn ",").map String.trim)]
     else [])
    ++ (if jsTruthyStr sq.status then
      [FilterClause.term "status" (sq.status.getD "")] else [])
    ++ (if jsTruthyStr sq.version then
      [FilterClause.term "version" (sq.version.getD "")] else [])
  let geoSort :=
    if jsTruthyNum sq.lat && jsTruthyNum sq.lon then
      [SortClauseItem.geoDistance (sq.lat.getD 0) (sq.lon.getD 0) "asc" "km"]
    else []
  let restSort :=
    match sq.sort with
    | .name => [SortClauseItem.byField "name.keyword" "asc"]
    | .updatedAt => [SortClauseItem.byField "updatedAt" "desc"]
    | _ => if jsTruthyStr sq.q then [] else [SortClauseItem.byField "updatedAt" "desc"]
  { must := must
    filterClauses := filterClauses
    sortClause := geoSort ++ restSort
    fromOffset := (sq.page - 1) * sq.perPage
    size := sq.perPage
    aggFields := ["tags", "status"] }

/-! ## Response shaping (src/server.js lines 396-409)

The engine returns, for each hit and each sort clause, one sort value
(the geo clause yields the computed distance in km; a field clause
yields the document's value on that field). Geo-distance computation
belongs to the external engine, so it enters as the parameter `geoKm`. -/

/-- A per-hit sort value returned by the engine. -/
inductive SortVal
  | num (x : ℚ)
  | str (s : String)
deriving DecidableEq, Repr

/-- The engine's sort value for one hit under one sort clause. -/
def clauseSortVal (geoKm : ℚ → ℚ → Option (List ℚ) → ℚ) (r : AgentRecord) :
    SortClauseItem → SortVal
  | .geoDistance lat lon _ _ =>
      .num (geoKm lat lon (r.location.map (·.coordinates)))
  | .byField f _ => if f = "name.keyword" then .str r.name else .num r.updatedAt

/-- The engine's per-hit `sort` array: present exactly when the request
carried a non-empty sort clause list, one value per clause in order. -/
def hitSortArray (geoKm : ℚ → ℚ → Option (List ℚ) → ℚ) (cq : CompiledQuery)
    (r : AgentRecord) : Option (List SortVal) :=
  if cq.sortClause.isEmpty then none
  else some (cq.sortClause.map (clauseSortVal geoKm r))

/-- A hit as shaped by the `/search` handler: the source document, its
score, and `distance: hit.sort?.[0]` — the first sort value when the hit
carries a sort array, absent otherwise. -/
structure ShapedHit where
  record : AgentRecord
  score : Option ℚ
  distance : Option SortVal
deriving DecidableEq, Repr

/-- The handler's hit mapping (src/server.js lines 397-401). -/
def shapeHit (geoKm : ℚ → ℚ → Option (List ℚ) → ℚ) (cq : CompiledQuery)
    (r : AgentRecord) (score : Option ℚ) : ShapedHit :=
  { record := r
    score := score
    distance := (hitSortArray geoKm cq r).bind List.head? }

/-! ## Cache statistics (src/server.js lines 158-164, 478-488) -/

/-- A JavaScript number as produced by the hit-rate expression: a finite
value, NaN, or Infinity. -/
inductive JsNum
  | val (x : ℚ)
  | nan
  | inf
deriving DecidableEq, Repr

/-- JavaScript division of two non-negative finite numbers:
`0/0` is NaN, `x/0` is Infinity for positive `x`. -/
def jsDiv (a b : ℚ) : JsNum :=
  if b = 0 then (if a = 0 then .nan else .inf) else .val (a / b)

/-- JavaScript truthiness of a number: `0` and NaN are falsy. -/
def jsTruthy : JsNum → Bool
  | .val x => x != 0
  | .nan => false
  | .inf => true

/-- The `x || 0` coalescing applied to the hit-rate expression. -/
def jsOrZero (x : JsNum) : JsNum :=
  if jsTruthy x then x else .val 0

/-- The reported hit rate:
`cacheStats.hits / (cacheStats.hits + cacheStats.misses) || 0`
(src/server.js lines 162 and 484). -/
def reportedHitRate (hits misses : ℕ) : JsNum :=
  jsOrZero (jsDiv (hits : ℚ) ((hits : ℚ) + (misses : ℚ)))

/-! ## Helper lemmas -/

/-- An `Except` bind that produced a success passed through a successful
intermediate value. -/
theorem except_bind_ok {ε α β : Type} {x : Except ε α} {f : α → Except ε β} {b : β}
    (h : x >>= f = .ok b) : ∃ a, x = .ok a ∧ f a = .ok b := by
  cases x with
  | error e => exact absurd h (by simp [Bind.bind, Except.bind])
  | ok a => exact ⟨a, rfl, by simpa [Bind.bind, Except.bind] using h⟩

/-- `checkOptString` passes an accepted value through unchanged. -/
theorem checkOptString_ok {name : String} {v w : Option String}
    (h : checkOptString name v = .ok w) : w = v := by
  unfold checkOptString at h
  split at h
  · exact absurd h (by simp)
  · exact (Except.ok.inj h).symm

/-- A validated search query carries the raw request's `q` unchanged. -/
theorem validateSearchQuery_ok_q {p : RawSearchParams} {sq : SearchQuery}
    (h : validateSearchQuery p = .ok sq) : sq.q = p.q := by
  unfold validateSearchQuery at h
  obtain ⟨q, hq, h⟩ := except_bind_ok h
  obtain ⟨tags, _, h⟩ := except_bind_ok h
  obtain ⟨status, _, h⟩ := except_bind_ok h
  obtain ⟨version, _, h⟩ := except_bind_ok h
  obtain ⟨city, _, h⟩ := except_bind_ok h
  obtain ⟨country, _, h⟩ := except_bind_ok h
  obtain ⟨lat, _, h⟩ := except_bind_ok h
  obtain ⟨lon, _, h⟩ := except_bind_ok h
  obtain ⟨page, _, h⟩ := except_bind_ok h
  obtain ⟨perPage, _, h⟩ := except_bind_ok h
  obtain ⟨sort, _, h⟩ := except_bind_ok h
  have hsq := Except.ok.inj h
  subst hsq
  exact checkOptString_ok hq

/-- The document kept under an upserted id is exactly the new one. -/
theorem filter_upsertStore (l : List (String × AgentRecord)) (id : String)
    (r : AgentRecord) :
    (upsertStore l id r).filter (fun p => p.1 == id) = [(id, r)] := by
  simp only [upsertStore, List.filter_cons, beq_self_eq_true, if_pos]
  rw [List.filter_filter]
  have hnil : List.filter (fun a => a.1 == id && a.1 != id) l = [] := by
    rw [List.filter_eq_nil_iff]
    intro a _
    simp
  rw [hnil]

/-! ## Claims -/

/-- Claim C1 (code bug): a search request supplying both coordinates may
still lose the geographic sort clause. The handler guards the geo clause
with JavaScript truthiness, so the valid latitude 0 (with longitude 10
and requested sort "distance") passes validation yet compiles to a sort
list whose only clause is descending `updatedAt` — no geographic
distance clause at all, contradicting the specified behaviour for every
supplied coordinate pair including 0. -/
def c1FailingRequest : RawSearchParams :=
  { lat := some 0, lon := some 10, sort := some "distance" }

/-- Claim C1: evaluation of the compiled query at the failing input:
lat 0 and lon 10 are accepted by validation, yet the compiled sort list
is exactly descending updatedAt, with no geo-distance clause first or
anywhere. -/
theorem c1_zero_latitude_loses_geo_sort :
    (validateSearchQuery c1FailingRequest).map
        (fun sq => (compileQuery sq).sortClause) =
      .ok [SortClauseItem.byField "updatedAt" "desc"] := by
  rfl

/-- Claim C2 counterexample: the DELETE `/agent/:agentId` handler issues
no refresh call, so the claim that the system forces index visibility on
both write paths fails on the delete path at the concrete id
"weather-agent-001". -/
theorem c2_delete_path_has_no_refresh :
    StoreEffect.refreshIndex ∉ deleteAgentEffects "weather-agent-001" := by
  decide

/-- Claim C2 (amended): a synchronous refresh is forced on the register
path (after indexing and cache invalidation), but the delete path only
deletes the document and invalidates the cache entry — it performs no
refresh, so search visibility of a deletion relies on near-real-time
indexing latency. -/
theorem c2_refresh_on_register_only (input : AgentRegistration) (agentId : String) :
    StoreEffect.refreshIndex ∈ registerEffects input ∧
    StoreEffect.refreshIndex ∉ deleteAgentEffects agentId := by
  refine ⟨by simp [registerEffects], ?_⟩
  simp [deleteAgentEffects]

/-- The stored record used in the Claim C3 evaluation. -/
def c3Record : AgentRecord :=
  { agentId := "weather-agent-001"
    name := "Weather Assistant"
    description := "Provides weather information"
    url := "http://localhost:3001"
    tags := ["weather"]
    status := "active"
    version := "1.2.0"
    capabilities := "Weather queries"
    location := none
    updatedAt := 100 }

/-- Claim C3 (code bug): a name-sorted search with no coordinates — not
geo-sorted — still attaches a `distance` field to every hit, because the
handler copies the first engine sort value (`hit.sort?.[0]`) into
`distance` whatever the clause was; here the hit's `distance` is the
string "Weather Assistant", the name sort key, where the specification
says the field is absent. The quantifier over `geoKm` shows the result
is independent of the external distance computation. -/
theorem c3_name_sort_attaches_distance
    (geoKm : ℚ → ℚ → Option (List ℚ) → ℚ) :
    (validateSearchQuery { sort := some "name" }).map
        (fun sq => (shapeHit geoKm (compileQuery sq) c3Record none).distance) =
      .ok (some (SortVal.str "Weather Assistant")) := by
  rfl

/-- Claim C4 counterexample: a search request whose text parameter is
the empty string is rejected by schema validation (Joi strings disallow
the empty string), not accepted, so the claim fails at the concrete
request with q set to the empty string. -/
theorem c4_empty_text_rejected :
    validateSearchQuery { q := some "" } =
      .error "q is not allowed to be empty" := by
  rfl

/-- Claim C4 (amended): a search whose text parameter is present but
empty is rejected as InvalidInput by validation and never reaches query
compilation; only a request with the text parameter absent is accepted
and compiled with no must clause, so the supplied filters alone apply. -/
theorem c4_absent_text_compiles_no_must (p : RawSearchParams) (sq : SearchQuery)
    (hq : p.q = none) (h : validateSearchQuery p = .ok sq) :
    (compileQuery sq).must = [] := by
  have hsq : sq.q = none := (validateSearchQuery_ok_q h).trans hq
  simp [compileQuery, jsTruthyStr, hsq]

/-- Witness for Claim C4's amended theorem: the request filtering on
tag "finance" with no text parameter compiles with no must clause. -/
theorem c4_absent_text_compiles_no_must_witness :
    (compileQuery
      { tags := some "finance", page := 1, perPage := 20, sort := .relevance }).must
      = [] :=
  c4_absent_text_compiles_no_must { tags := some "finance" }
    { tags := some "finance", page := 1, perPage := 20, sort := .relevance }
    rfl (by rfl)

/-- Claim C8: the reported hit rate is hits divided by hits plus misses,
is exactly 0 when no lookups have occurred, and is never NaN: the
JavaScript expression produces NaN only at 0/0, and the trailing
or-zero coalesces that (and only falsy values) to 0. -/
theorem c8_hit_rate_total (h m : ℕ) :
    reportedHitRate h m =
      .val (if h + m = 0 then 0 else (h : ℚ) / ((h : ℚ) + (m : ℚ))) ∧
    reportedHitRate h m ≠ .nan := by
  have jsOrZero_val : ∀ x : ℚ, jsOrZero (.val x) = .val x := by
    intro x
    unfold jsOrZero jsTruthy
    by_cases hx : x = 0
    · subst hx; simp
    · simp [hx]
  by_cases hzero : h + m = 0
  · obtain ⟨rfl, rfl⟩ := Nat.add_eq_zero.mp hzero
    refine ⟨?_, ?_⟩ <;> simp [reportedHitRate, jsDiv, jsOrZero, jsTruthy]
  · have hden : ((h : ℚ) + (m : ℚ)) ≠ 0 := by
      have hc : ((h + m : ℕ) : ℚ) ≠ 0 := Nat.cast_ne_zero.mpr hzero
      push_cast at hc
      exact hc
    have hdiv : jsDiv (h : ℚ) ((h : ℚ) + (m : ℚ)) =
        .val ((h : ℚ) / ((h : ℚ) + (m : ℚ))) := by
      unfold jsDiv
      rw [if_neg hden]
    constructor
    · rw [reportedHitRate, hdiv, jsOrZero_val, if_neg hzero]
    · rw [reportedHitRate, hdiv, jsOrZero_val]
      simp

/-- Claim C5: after two registrations under the same agentId, whatever
the prior state, the store holds exactly one document for that id, that
document is exactly the stamped form of the second registration (full
replacement, no merging with the first), and the card cache holds no
entry for that id. -/
theorem c5_reregistration_replaces (st : ServerState)
    (a1 a2 : AgentRegistration) (t1 t2 : ℚ) (_hid : a1.agentId = a2.agentId) :
    ((register (register st a1 t1) a2 t2).store.filter
        (fun p => p.1 == a2.agentId)) = [(a2.agentId, toStored a2 t2)] ∧
    alistLookup (register (register st a1 t1) a2 t2).cache
        (cardKey a2.agentId) = none := by
  constructor
  · exact filter_upsertStore _ _ _
  · exact alistLookup_filter_ne _ _

/-- A prior state for the Claim C5 witness, holding an older document
and a cached card under the re-registered id. -/
def c5PriorState : ServerState :=
  { store := [("weather-agent-001", c3Record)]
    cache := [("agentcard:weather-agent-001",
      ⟨{ data := [("name", "old")], agentId := "weather-agent-001",
         cached := false, fetchTimestamp := 0 }, 300⟩)]
    hits := 2
    misses := 1 }

/-- The first registration of the Claim C5 witness. -/
def c5First : AgentRegistration :=
  { agentId := "weather-agent-001"
    name := "Weather Assistant"
    description := "old description"
    url := "http://localhost:3001"
    tags := ["weather"] }

/-- The second registration of the Claim C5 witness: same id, different
fields. -/
def c5Second : AgentRegistration :=
  { agentId := "weather-agent-001"
    name := "Weather Assistant v2"
    description := "new description"
    url := "http://localhost:3009"
    tags := ["weather", "forecast"]
    status := "maintenance"
    version := "2.0.0" }

/-- Witness for Claim C5 at a concrete prior state with an existing
document and cached card for the id. -/
theorem c5_reregistration_replaces_witness :
    ((register (register c5PriorState c5First 10) c5Second 20).store.filter
        (fun p => p.1 == c5Second.agentId)) =
      [(c5Second.agentId, toStored c5Second 20)] ∧
    alistLookup (register (register c5PriorState c5First 10) c5Second 20).cache
        (cardKey c5Second.agentId) = none :=
  c5_reregistration_replaces c5PriorState c5First c5Second 10 20 rfl

/-- Claim C6: a getCard call that misses the cache and whose outbound
fetch fails returns the CardUnavailable response carrying the agentId
and the record's url, and leaves the cache entries unchanged, so a
later getCard re-attempts the fetch. -/
theorem c6_fetch_failure_not_cached (st : ServerState) (agentId : String)
    (fetch : String → FetchResult) (now : ℚ) (r : AgentRecord)
    (hmiss : cacheGet st.cache (cardKey agentId) now = none)
    (hrec : alistLookup st.store agentId = some r)
    (hfail : fetch r.url = .failed) :
    (getCard st agentId fetch now).2 = .cardUnavailable agentId r.url ∧
    (getCard st agentId fetch now).1.cache = st.cache := by
  constructor <;> simp [getCard, hmiss, hrec, hfail]

/-- Witness for Claim C6: concrete store with one agent, empty cache,
an origin that always fails. -/
theorem c6_fetch_failure_not_cached_witness :
    (getCard ⟨[("weather-agent-001", c3Record)], [], 0, 0⟩ "weather-agent-001"
        (fun _ => .failed) 0).2 =
      .cardUnavailable "weather-agent-001" c3Record.url ∧
    (getCard ⟨[("weather-agent-001", c3Record)], [], 0, 0⟩ "weather-agent-001"
        (fun _ => .failed) 0).1.cache = [] :=
  c6_fetch_failure_not_cached ⟨[("weather-agent-001", c3Record)], [], 0, 0⟩
    "weather-agent-001" (fun _ => .failed) 0 c3Record rfl rfl rfl

/-- Claim C7: with the agent present, no live cache entry, and a
reachable origin, the first getCard returns the fetched card with
cached false and stores it; a second getCard before the TTL elapses is
served from the cache — it increments hits — and returns the same
payload with only the cached flag flipped to true. -/
theorem c7_fetch_then_cache_hit (st : ServerState) (agentId : String)
    (fetch : String → FetchResult) (t1 t2 : ℚ) (r : AgentRecord)
    (d : List (String × String))
    (hmiss : cacheGet st.cache (cardKey agentId) t1 = none)
    (hrec : alistLookup st.store agentId = some r)
    (hok : fetch r.url = .ok d)
    (ht : t2 < t1 + cacheTTL) :
    (getCard st agentId fetch t1).2 =
      .ok { data := d, agentId := agentId, cached := false, fetchTimestamp := t1 } ∧
    (getCard (getCard st agentId fetch t1).1 agentId fetch t2).2 =
      .ok { data := d, agentId := agentId, cached := true, fetchTimestamp := t1 } ∧
    (getCard (getCard st agentId fetch t1).1 agentId fetch t2).1.hits =
      (getCard st agentId fetch t1).1.hits + 1 := by
  have h1 : getCard st agentId fetch t1 =
      ({ st with
          misses := st.misses + 1
          cache := cacheSet st.cache (cardKey agentId)
            { data := d, agentId := agentId, cached := false, fetchTimestamp := t1 } t1 },
        .ok { data := d, agentId := agentId, cached := false, fetchTimestamp := t1 }) := by
    simp [getCard, hmiss, hrec, hok]
  have h2 : cacheGet (cacheSet st.cache (cardKey agentId)
      { data := d, agentId := agentId, cached := false, fetchTimestamp := t1 } t1)
      (cardKey agentId) t2 =
      some { data := d, agentId := agentId, cached := false, fetchTimestamp := t1 } := by
    simp [cacheGet, cacheSet, ht]
  refine ⟨by rw [h1], ?_, ?_⟩ <;> rw [h1] <;> simp [getCard, h2]

/-- Witness for Claim C7: concrete store, origin payload, first call at
time 0 and second at time 10, within the 300-unit TTL. -/
theorem c7_fetch_then_cache_hit_witness :
    (getCard ⟨[("weather-agent-001", c3Record)], [], 0, 0⟩ "weather-agent-001"
        (fun _ => .ok [("name", "Weather Assistant")]) 0).2 =
      .ok { data := [("name", "Weather Assistant")], agentId := "weather-agent-001",
            cached := false, fetchTimestamp := 0 } ∧
    (getCard (getCard ⟨[("weather-agent-001", c3Record)], [], 0, 0⟩ "weather-agent-001"
          (fun _ => .ok [("name", "Weather Assistant")]) 0).1 "weather-agent-001"
        (fun _ => .ok [("name", "Weather Assistant")]) 10).2 =
      .ok { data := [("name", "Weather Assistant")], agentId := "weather-agent-001",
            cached := true, fetchTimestamp := 0 } ∧
    (getCard (getCard ⟨[("weather-agent-001", c3Record)], [], 0, 0⟩ "weather-agent-001"
          (fun _ => .ok [("name", "Weather Assistant")]) 0).1 "weather-agent-001"
        (fun _ => .ok [("name", "Weather Assistant")]) 10).1.hits =
      (getCard ⟨[("weather-agent-001", c3Record)], [], 0, 0⟩ "weather-agent-001"
          (fun _ => .ok [("name", "Weather Assistant")]) 0).1.hits + 1 :=
  c7_fetch_then_cache_hit ⟨[("weather-agent-001", c3Record)], [], 0, 0⟩
    "weather-agent-001" (fun _ => .ok [("name", "Weather Assistant")]) 0 10
    c3Record [("name", "Weather Assistant")] rfl rfl rfl (by norm_num [cacheTTL])

/-- Claim C9: every getCard call that is not served from the cache
increments the miss counter exactly once, whatever happens next — the
id may be absent from the store (NotFound), the fetch may fail
(CardUnavailable), or the fetch may succeed; the increment happens
before the record lookup, so all three outcomes are counted. -/
theorem c9_every_miss_counted (st : ServerState) (agentId : String)
    (fetch : String → FetchResult) (now : ℚ)
    (hmiss : cacheGet st.cache (cardKey agentId) now = none) :
    (getCard st agentId fetch now).1.misses = st.misses + 1 := by
  simp only [getCard, hmiss]
  split
  · rfl
  · split <;> rfl

/-- Witness for Claim C9 on the NotFound path: an id absent from both
cache and store still increments the miss counter. -/
theorem c9_every_miss_counted_witness :
    (getCard ⟨[], [], 0, 5⟩ "ghost-agent" (fun _ => .failed) 0).1.misses = 5 + 1 :=
  c9_every_miss_counted ⟨[], [], 0, 5⟩ "ghost-agent" (fun _ => .failed) 0 rfl

/-- Claim C10: a successful registration whose input carries
location.coordinates as the object with lat and lon members stores —
and getMetadata afterwards returns — a record whose coordinates are the
two-element array with lon first and lat second, while every other
submitted field keeps its submitted shape; the coordinates field
therefore does not round-trip to its input shape. -/
theorem c10_coordinates_lon_lat (st : ServerState) (a : AgentRegistration)
    (now : ℚ) (loc : LocationInput) (hloc : a.location = some loc) :
    getMetadata (register st a now) a.agentId = some (toStored a now) ∧
    (toStored a now).location = some
      { coordinates := [loc.coordinates.lon, loc.coordinates.lat]
        city := loc.city
        country := loc.country } ∧
    (toStored a now).agentId = a.agentId ∧
    (toStored a now).name = a.name ∧
    (toStored a now).description = a.description ∧
    (toStored a now).url = a.url ∧
    (toStored a now).tags = a.tags ∧
    (toStored a now).status = a.status ∧
    (toStored a now).version = a.version ∧
    (toStored a now).capabilities = a.capabilities ∧
    (toStored a now).updatedAt = now := by
  refine ⟨?_, ?_, rfl, rfl, rfl, rfl, rfl, rfl, rfl, rfl, rfl⟩
  · simp [getMetadata, register, upsertStore]
  · simp [toStored, hloc]

/-- The registration input of the Claim C10 witness: the New York
coordinates submitted as an object with lat then lon. -/
def c10Input : AgentRegistration :=
  { agentId := "weather-agent-001"
    name := "Weather Assistant"
    description := "Provides weather information"
    url := "http://localhost:3001"
    tags := ["weather"]
    location := some
      { coordinates := { lat := 40, lon := -74 }
        city := some "New York"
        country := some "US" } }

/-- Witness for Claim C10: the stored New York coordinates come back
from getMetadata as the array with lon -74 first and lat 40 second. -/
theorem c10_coordinates_lon_lat_witness :
    getMetadata (register ⟨[], [], 0, 0⟩ c10Input 7) c10Input.agentId =
      some (toStored c10Input 7) ∧
    (toStored c10Input 7).location = some
      { coordinates := [-74, 40], city := some "New York", country := some "US" } ∧
    (toStored c10Input 7).agentId = c10Input.agentId ∧
    (toStored c10Input 7).name = c10Input.name ∧
    (toStored c10Input 7).description = c10Input.description ∧
    (toStored c10Input 7).url = c10Input.url ∧
    (toStored c10Input 7).tags = c10Input.tags ∧
    (toStored c10Input 7).status = c10Input.status ∧
    (toStored c10Input 7).version = c10Input.version ∧
    (toStored c10Input 7).capabilities = c10Input.capabilities ∧
    (toStored c10Input 7).updatedAt = 7 :=
  c10_coordinates_lon_lat ⟨[], [], 0, 0⟩ c10Input 7
    { coordinates := { lat := 40, lon := -74 }
      city := some "New York"
      country := some "US" } rfl

end AgentDiscovery
